import Mathlib

/-!
Shallow embedding of the transfer-resource state trackers of
`src/device/transfer/resource_state.rs` (Blaze4D-core).

The Rust code tracks buffers and images registered with a transfer queue,
emits `vk::BufferMemoryBarrier2` / `vk::ImageMemoryBarrier2` descriptors into
a caller supplied `Vec` sink, and on release reports the residual pending
access mask.  Mutation of `&mut self` is modelled by explicit state passing:
each operation returns its result together with the new tracker state and the
new sink contents.  The `HashMap` is modelled as a function from ids to
optional entries.  Vulkan bit masks are `Nat` with the numeric values of the
`ash` constants.
-/

set_option maxHeartbeats 1000000

namespace Blaze4D

namespace vk

/-- `vk::AccessFlags2::TRANSFER_READ` (bit 11). -/
def TRANSFER_READ : Nat := 0x800

/-- `vk::AccessFlags2::TRANSFER_WRITE` (bit 12). -/
def TRANSFER_WRITE : Nat := 0x1000

/-- `vk::AccessFlags2::empty()`. -/
def ACCESS_NONE : Nat := 0

/-- `vk::PipelineStageFlags2::TRANSFER` (bit 12). -/
def STAGE_TRANSFER : Nat := 0x1000

/-- `vk::WHOLE_SIZE` (`u64::MAX`). -/
def WHOLE_SIZE : Nat := 2 ^ 64 - 1

/-- `vk::REMAINING_MIP_LEVELS` (`u32::MAX`). -/
def REMAINING_MIP_LEVELS : Nat := 2 ^ 32 - 1

/-- `vk::REMAINING_ARRAY_LAYERS` (`u32::MAX`). -/
def REMAINING_ARRAY_LAYERS : Nat := 2 ^ 32 - 1

/-- `vk::ImageLayout::UNDEFINED`. -/
def UNDEFINED : Nat := 0

/-- `vk::ImageLayout::TRANSFER_SRC_OPTIMAL`. -/
def TRANSFER_SRC_OPTIMAL : Nat := 6

/-- `vk::ImageLayout::TRANSFER_DST_OPTIMAL`. -/
def TRANSFER_DST_OPTIMAL : Nat := 7

/-- `vk::ImageAspectFlags::COLOR`. -/
def ASPECT_COLOR : Nat := 1

/-- `vk::BufferMemoryBarrier2` restricted to the fields the tracker sets
(the builder leaves the rest defaulted). -/
structure BufferMemoryBarrier2 where
  src_stage_mask : Nat
  src_access_mask : Nat
  dst_stage_mask : Nat
  dst_access_mask : Nat
  buffer : Nat
  offset : Nat
  size : Nat
deriving DecidableEq

/-- `vk::ImageSubresourceRange`. -/
structure ImageSubresourceRange where
  aspect_mask : Nat
  base_mip_level : Nat
  level_count : Nat
  base_array_layer : Nat
  layer_count : Nat
deriving DecidableEq

/-- `vk::ImageMemoryBarrier2` restricted to the fields the tracker sets. -/
structure ImageMemoryBarrier2 where
  src_stage_mask : Nat
  src_access_mask : Nat
  dst_stage_mask : Nat
  dst_access_mask : Nat
  old_layout : Nat
  new_layout : Nat
  image : Nat
  subresource_range : ImageSubresourceRange
deriving DecidableEq

end vk

/-- Unique buffer identifier (`BufferId`), an opaque comparable key. -/
abbrev BufferId := Nat

/-- Unique image identifier (`ImageId`). -/
abbrev ImageId := Nat

/-- `crate::vk::objects::buffer::Buffer`: carries its id and its raw
`vk::Buffer` handle. -/
structure Buffer where
  id : BufferId
  handle : Nat
deriving DecidableEq

def Buffer.get_id (b : Buffer) : BufferId := b.id

def Buffer.get_handle (b : Buffer) : Nat := b.handle

/-- `crate::vk::objects::image::Image`: carries its id and its raw
`vk::Image` handle. -/
structure Image where
  id : ImageId
  handle : Nat
deriving DecidableEq

def Image.get_id (i : Image) : ImageId := i.id

def Image.get_handle (i : Image) : Nat := i.handle

/-- `BufferState`: per-entry state of the buffer tracker. -/
structure BufferState where
  handle : Nat
  read_pending : Bool
  write_pending : Bool
deriving DecidableEq

/-- `BufferState::new`. -/
def BufferState.new (buffer : Buffer) : BufferState :=
  { handle := buffer.get_handle
    read_pending := false
    write_pending := false }

/-- The `src_access_mask` computed at the top of `BufferState::update_state`
(lines 84-90): starts empty, adds TRANSFER_WRITE on a read-after-write
hazard, adds TRANSFER_WRITE | TRANSFER_READ on a write-after-anything
hazard. -/
def bufferUpdateSrcMask (read write read_pending write_pending : Bool) : Nat :=
  let m := vk.ACCESS_NONE
  let m := if read && write_pending then m ||| vk.TRANSFER_WRITE else m
  let m := if write && (write_pending || read_pending) then
    m ||| (vk.TRANSFER_WRITE ||| vk.TRANSFER_READ) else m
  m

/-- `BufferState::update_state`: computes the source access mask, ORs the
pending flags, and if the mask is non-empty pushes one barrier onto the
sink.  Returns the new state and the new sink. -/
def BufferState.update_state (s : BufferState) (read write : Bool)
    (barriers : List vk.BufferMemoryBarrier2) :
    BufferState × List vk.BufferMemoryBarrier2 :=
  let src_access_mask := bufferUpdateSrcMask read write s.read_pending s.write_pending
  let s' := { s with
    read_pending := s.read_pending || read
    write_pending := s.write_pending || write }
  if src_access_mask ≠ vk.ACCESS_NONE then
    (s', barriers ++ [{
      src_stage_mask := vk.STAGE_TRANSFER
      src_access_mask := src_access_mask
      dst_stage_mask := vk.STAGE_TRANSFER
      dst_access_mask := vk.TRANSFER_READ ||| vk.TRANSFER_WRITE
      buffer := s.handle
      offset := 0
      size := vk.WHOLE_SIZE }])
  else
    (s', barriers)

/-- `BufferStateTracker`: a map from buffer ids to entry states. -/
structure BufferStateTracker where
  buffers : BufferId → Option BufferState

/-- `BufferStateTracker::new`. -/
def BufferStateTracker.new : BufferStateTracker :=
  { buffers := fun _ => none }

/-- `BufferStateTracker::register`: fails (leaving the tracker untouched, as
the Rust early-returns before the insert) when the id is already present,
otherwise inserts a fresh entry. -/
def BufferStateTracker.register (t : BufferStateTracker) (buffer : Buffer) :
    Except Unit Unit × BufferStateTracker :=
  if (t.buffers buffer.get_id).isSome then
    (Except.error (), t)
  else
    (Except.ok (),
      { buffers := fun i =>
          if i = buffer.get_id then some (BufferState.new buffer) else t.buffers i })

/-- `BufferStateTracker::update_state`: looks up the entry, updates it in
place and returns its handle; `none` when the id is unknown. -/
def BufferStateTracker.update_state (t : BufferStateTracker) (id : BufferId)
    (read write : Bool) (barriers : List vk.BufferMemoryBarrier2) :
    Option Nat × BufferStateTracker × List vk.BufferMemoryBarrier2 :=
  match t.buffers id with
  | some buffer =>
    let r := buffer.update_state read write barriers
    (some r.1.handle,
      { buffers := fun i => if i = id then some r.1 else t.buffers i },
      r.2)
  | none => (none, t, barriers)

/-- `BufferStateTracker::release`: removes the entry and returns its handle
together with the residual access mask built from the pending flags. -/
def BufferStateTracker.release (t : BufferStateTracker) (id : BufferId) :
    Option (Nat × Nat) × BufferStateTracker :=
  match t.buffers id with
  | some buffer =>
    let access_mask := vk.ACCESS_NONE
    let access_mask := if buffer.read_pending then
      access_mask ||| vk.TRANSFER_READ else access_mask
    let access_mask := if buffer.write_pending then
      access_mask ||| vk.TRANSFER_WRITE else access_mask
    (some (buffer.handle, access_mask),
      { buffers := fun i => if i = id then none else t.buffers i })
  | none => (none, t)

/-- `ImageState`: per-entry state of the image tracker. -/
structure ImageState where
  handle : Nat
  aspect_mask : Nat
  layout : Nat
  read_pending : Bool
  write_pending : Bool
deriving DecidableEq

/-- `ImageState::new`. -/
def ImageState.new (image : Image) (aspect_mask : Nat) (layout : Nat) : ImageState :=
  { handle := image.get_handle
    aspect_mask := aspect_mask
    layout := layout
    read_pending := false
    write_pending := false }

/-- `ImageState::update_state_read` (lines 182-206): if the layout is not
TRANSFER_SRC_OPTIMAL or a write is pending, push a transition barrier and
move to (SRC_OPTIMAL, read_pending, not write_pending); otherwise do
nothing. -/
def ImageState.update_state_read (s : ImageState)
    (barriers : List vk.ImageMemoryBarrier2) :
    ImageState × List vk.ImageMemoryBarrier2 :=
  if s.layout ≠ vk.TRANSFER_SRC_OPTIMAL ∨ s.write_pending then
    ({ s with
        layout := vk.TRANSFER_SRC_OPTIMAL
        write_pending := false
        read_pending := true },
      barriers ++ [{
        src_stage_mask := vk.STAGE_TRANSFER
        src_access_mask := vk.TRANSFER_WRITE
        dst_stage_mask := vk.STAGE_TRANSFER
        dst_access_mask := vk.TRANSFER_READ
        old_layout := s.layout
        new_layout := vk.TRANSFER_SRC_OPTIMAL
        image := s.handle
        subresource_range := {
          aspect_mask := s.aspect_mask
          base_mip_level := 0
          level_count := vk.REMAINING_MIP_LEVELS
          base_array_layer := 0
          layer_count := vk.REMAINING_ARRAY_LAYERS } }])
  else
    (s, barriers)

/-- `ImageState::update_state_write` (lines 208-232): if the layout is not
TRANSFER_DST_OPTIMAL or any access is pending, push a transition barrier and
move to (DST_OPTIMAL, write_pending, not read_pending); otherwise do
nothing. -/
def ImageState.update_state_write (s : ImageState)
    (barriers : List vk.ImageMemoryBarrier2) :
    ImageState × List vk.ImageMemoryBarrier2 :=
  if s.layout ≠ vk.TRANSFER_DST_OPTIMAL ∨ s.read_pending ∨ s.write_pending then
    ({ s with
        layout := vk.TRANSFER_DST_OPTIMAL
        write_pending := true
        read_pending := false },
      barriers ++ [{
        src_stage_mask := vk.STAGE_TRANSFER
        src_access_mask := vk.TRANSFER_READ ||| vk.TRANSFER_WRITE
        dst_stage_mask := vk.STAGE_TRANSFER
        dst_access_mask := vk.TRANSFER_WRITE
        old_layout := s.layout
        new_layout := vk.TRANSFER_DST_OPTIMAL
        image := s.handle
        subresource_range := {
          aspect_mask := s.aspect_mask
          base_mip_level := 0
          level_count := vk.REMAINING_MIP_LEVELS
          base_array_layer := 0
          layer_count := vk.REMAINING_ARRAY_LAYERS } }])
  else
    (s, barriers)

/-- `ImageStateTracker`: a map from image ids to entry states. -/
structure ImageStateTracker where
  images : ImageId → Option ImageState

/-- `ImageStateTracker::new`. -/
def ImageStateTracker.new : ImageStateTracker :=
  { images := fun _ => none }

/-- `ImageStateTracker::register`. -/
def ImageStateTracker.register (t : ImageStateTracker) (image : Image)
    (aspect_mask : Nat) (layout : Nat) :
    Except Unit Unit × ImageStateTracker :=
  if (t.images image.get_id).isSome then
    (Except.error (), t)
  else
    (Except.ok (),
      { images := fun i =>
          if i = image.get_id then some (ImageState.new image aspect_mask layout)
          else t.images i })

/-- `ImageStateTracker::update_state_read`. -/
def ImageStateTracker.update_state_read (t : ImageStateTracker) (id : ImageId)
    (barriers : List vk.ImageMemoryBarrier2) :
    Option Nat × ImageStateTracker × List vk.ImageMemoryBarrier2 :=
  match t.images id with
  | some image =>
    let r := image.update_state_read barriers
    (some r.1.handle,
      { images := fun i => if i = id then some r.1 else t.images i },
      r.2)
  | none => (none, t, barriers)

/-- `ImageStateTracker::update_state_write`. -/
def ImageStateTracker.update_state_write (t : ImageStateTracker) (id : ImageId)
    (barriers : List vk.ImageMemoryBarrier2) :
    Option Nat × ImageStateTracker × List vk.ImageMemoryBarrier2 :=
  match t.images id with
  | some image =>
    let r := image.update_state_write barriers
    (some r.1.handle,
      { images := fun i => if i = id then some r.1 else t.images i },
      r.2)
  | none => (none, t, barriers)

/-- `ImageStateTracker::release`. -/
def ImageStateTracker.release (t : ImageStateTracker) (id : ImageId) :
    Option (Nat × Nat × Nat × Nat) × ImageStateTracker :=
  match t.images id with
  | some image =>
    let access_mask := vk.ACCESS_NONE
    let access_mask := if image.read_pending then
      access_mask ||| vk.TRANSFER_READ else access_mask
    let access_mask := if image.write_pending then
      access_mask ||| vk.TRANSFER_WRITE else access_mask
    (some (image.handle, image.aspect_mask, access_mask, image.layout),
      { images := fun i => if i = id then none else t.images i })
  | none => (none, t)

/-- One per-entry image operation (`update_state_read` or
`update_state_write`). -/
inductive ImgOp where
  | opRead : ImgOp
  | opWrite : ImgOp
deriving DecidableEq

/-- Run a sequence of image update operations on one entry, threading the
state and the barrier sink. -/
def runImgOps (s : ImageState) (ops : List ImgOp)
    (barriers : List vk.ImageMemoryBarrier2) :
    ImageState × List vk.ImageMemoryBarrier2 :=
  match ops with
  | [] => (s, barriers)
  | op :: rest =>
    let r := match op with
      | ImgOp.opRead => s.update_state_read barriers
      | ImgOp.opWrite => s.update_state_write barriers
    runImgOps r.1 rest r.2

/-- C8: for any buffer and any initial sink, the sequence
`register; update(read=true, write=false); update(read=true, write=false);
release` appends zero barriers to the sink and `release` returns the
registered handle with residual access mask exactly TRANSFER_READ. -/
theorem buffer_read_only_idempotence (b : Buffer)
    (sink : List vk.BufferMemoryBarrier2) :
    ((((BufferStateTracker.new.register b).2.update_state b.get_id true false
          sink).2.1.update_state b.get_id true false
        (((BufferStateTracker.new.register b).2.update_state b.get_id true false
          sink).2.2)).2.2 = sink) ∧
    ((((BufferStateTracker.new.register b).2.update_state b.get_id true false
          sink).2.1.update_state b.get_id true false
        sink).2.1.release b.get_id).1 = some (b.get_handle, vk.TRANSFER_READ) := by
  cases b with
  | mk id handle =>
    refine ⟨?_, ?_⟩ <;>
      simp [BufferStateTracker.new, BufferStateTracker.register,
        BufferStateTracker.update_state, BufferStateTracker.release,
        BufferState.new, BufferState.update_state, bufferUpdateSrcMask,
        Buffer.get_id, Buffer.get_handle, vk.ACCESS_NONE, vk.TRANSFER_READ]

/-- C5: for an image registered with initial layout TRANSFER_SRC_OPTIMAL,
`register; update_read; update_read; release` appends zero barriers, the
entry's `read_pending` and `write_pending` stay false after both updates,
and `release` returns the registered handle, the registered aspect mask, an
empty residual access mask and layout TRANSFER_SRC_OPTIMAL. -/
theorem image_redundant_read (img : Image) (aspect : Nat)
    (sink : List vk.ImageMemoryBarrier2) :
    (((ImageStateTracker.new.register img aspect
          vk.TRANSFER_SRC_OPTIMAL).2.update_state_read img.get_id sink).2.1.images
        img.get_id = some (ImageState.new img aspect vk.TRANSFER_SRC_OPTIMAL)) ∧
    ((((ImageStateTracker.new.register img aspect
          vk.TRANSFER_SRC_OPTIMAL).2.update_state_read img.get_id
          sink).2.1.update_state_read img.get_id sink).2.1.images
        img.get_id = some (ImageState.new img aspect vk.TRANSFER_SRC_OPTIMAL)) ∧
    ((((ImageStateTracker.new.register img aspect
          vk.TRANSFER_SRC_OPTIMAL).2.update_state_read img.get_id
          sink).2.1.update_state_read img.get_id
        (((ImageStateTracker.new.register img aspect
          vk.TRANSFER_SRC_OPTIMAL).2.update_state_read img.get_id
          sink).2.2)).2.2 = sink) ∧
    (((((ImageStateTracker.new.register img aspect
          vk.TRANSFER_SRC_OPTIMAL).2.update_state_read img.get_id
          sink).2.1.update_state_read img.get_id sink).2.1.release
        img.get_id).1
      = some (img.get_handle, aspect, vk.ACCESS_NONE, vk.TRANSFER_SRC_OPTIMAL)) := by
  cases img with
  | mk id handle =>
    refine ⟨?_, ?_, ?_, ?_⟩ <;>
      simp [ImageStateTracker.new, ImageStateTracker.register,
        ImageStateTracker.update_state_read, ImageStateTracker.release,
        ImageState.new, ImageState.update_state_read,
        Image.get_id, Image.get_handle, vk.ACCESS_NONE]

/-- C9: for an image registered with initial layout TRANSFER_DST_OPTIMAL, a
first `update_write` appends no barrier and leaves both pending flags
false, so `register; update_write; release` appends zero barriers and
`release` reports an empty residual access mask (with the registered
handle, aspect mask and layout TRANSFER_DST_OPTIMAL). -/
theorem image_redundant_write (img : Image) (aspect : Nat)
    (sink : List vk.ImageMemoryBarrier2) :
    (((ImageStateTracker.new.register img aspect
          vk.TRANSFER_DST_OPTIMAL).2.update_state_write img.get_id sink).2.2
        = sink) ∧
    (((ImageStateTracker.new.register img aspect
          vk.TRANSFER_DST_OPTIMAL).2.update_state_write img.get_id sink).2.1.images
        img.get_id = some (ImageState.new img aspect vk.TRANSFER_DST_OPTIMAL)) ∧
    ((((ImageStateTracker.new.register img aspect
          vk.TRANSFER_DST_OPTIMAL).2.update_state_write img.get_id
          sink).2.1.release img.get_id).1
      = some (img.get_handle, aspect, vk.ACCESS_NONE, vk.TRANSFER_DST_OPTIMAL)) := by
  cases img with
  | mk id handle =>
    refine ⟨?_, ?_, ?_⟩ <;>
      simp [ImageStateTracker.new, ImageStateTracker.register,
        ImageStateTracker.update_state_write, ImageStateTracker.release,
        ImageState.new, ImageState.update_state_write,
        Image.get_id, Image.get_handle, vk.ACCESS_NONE]

/-- C4 counterexample: for the image with id 1 and handle 7 registered with
layout TRANSFER_SRC_OPTIMAL, the first `update_state_read` call leaves the
entry with `read_pending = false` and `write_pending = false`, so it is not
the case that exactly one of the two flags is true after every update. -/
theorem image_flags_exactly_one_counterexample :
    (((ImageStateTracker.new.register ⟨1, 7⟩ vk.ASPECT_COLOR
          vk.TRANSFER_SRC_OPTIMAL).2.update_state_read 1 []).2.1.images 1)
      = some ⟨7, vk.ASPECT_COLOR, vk.TRANSFER_SRC_OPTIMAL, false, false⟩ := by
  decide

/-- C1: for a registered buffer id, `update_state` computes the source
access mask `bufferUpdateSrcMask` — which contains TRANSFER_WRITE whenever
`read ∧ write_pending`, and both TRANSFER_WRITE and TRANSFER_READ whenever
`write ∧ (write_pending ∨ read_pending)` — ORs the pending flags with the
request, returns the stored handle, and appends exactly one barrier
(transfer→transfer, src access = the mask, dst access = TRANSFER_READ |
TRANSFER_WRITE, the registered handle, offset 0, whole size) iff the mask
is non-empty. -/
theorem buffer_update_state_spec
    (t : BufferStateTracker) (id : BufferId) (s : BufferState)
    (read write : Bool) (sink : List vk.BufferMemoryBarrier2) (src : Nat)
    (h : t.buffers id = some s)
    (hsrc : src = bufferUpdateSrcMask read write s.read_pending s.write_pending) :
    (read = true → s.write_pending = true →
      src &&& vk.TRANSFER_WRITE = vk.TRANSFER_WRITE) ∧
    (write = true → (s.write_pending = true ∨ s.read_pending = true) →
      src &&& vk.TRANSFER_WRITE = vk.TRANSFER_WRITE ∧
      src &&& vk.TRANSFER_READ = vk.TRANSFER_READ) ∧
    (t.update_state id read write sink).1 = some s.handle ∧
    (t.update_state id read write sink).2.1.buffers id
      = some ⟨s.handle, s.read_pending || read, s.write_pending || write⟩ ∧
    (src ≠ vk.ACCESS_NONE →
      (t.update_state id read write sink).2.2
        = sink ++ [⟨vk.STAGE_TRANSFER, src, vk.STAGE_TRANSFER,
            vk.TRANSFER_READ ||| vk.TRANSFER_WRITE, s.handle, 0, vk.WHOLE_SIZE⟩]) ∧
    (src = vk.ACCESS_NONE → (t.update_state id read write sink).2.2 = sink) := by
  subst hsrc
  cases s with
  | mk handle rp wp =>
    cases read <;> cases write <;> cases rp <;> cases wp <;>
      simp [BufferStateTracker.update_state, BufferState.update_state,
        bufferUpdateSrcMask, h, vk.ACCESS_NONE, vk.TRANSFER_READ,
        vk.TRANSFER_WRITE, vk.STAGE_TRANSFER, vk.WHOLE_SIZE] <;>
      decide

/-- Closed witness for `buffer_update_state_spec`: a tracker holding the
buffer id 1 with handle 42 and a pending write, updated with a read. -/
theorem buffer_update_state_spec_witness :
    ((BufferStateTracker.mk
        (fun i => if i = 1 then some ⟨42, false, true⟩ else none)).buffers 1
      = some ⟨42, false, true⟩ ∧
     (4096 : Nat) = bufferUpdateSrcMask true false false true) ∧
    ((true = true → true = true →
      (4096 : Nat) &&& vk.TRANSFER_WRITE = vk.TRANSFER_WRITE) ∧
    (false = true → (true = true ∨ false = true) →
      (4096 : Nat) &&& vk.TRANSFER_WRITE = vk.TRANSFER_WRITE ∧
      (4096 : Nat) &&& vk.TRANSFER_READ = vk.TRANSFER_READ) ∧
    ((BufferStateTracker.mk
        (fun i => if i = 1 then some ⟨42, false, true⟩ else none)).update_state
        1 true false []).1 = some (42 : Nat) ∧
    ((BufferStateTracker.mk
        (fun i => if i = 1 then some ⟨42, false, true⟩ else none)).update_state
        1 true false []).2.1.buffers 1
      = some ⟨42, false || true, true || false⟩ ∧
    ((4096 : Nat) ≠ vk.ACCESS_NONE →
      ((BufferStateTracker.mk
        (fun i => if i = 1 then some ⟨42, false, true⟩ else none)).update_state
        1 true false []).2.2
        = [] ++ [⟨vk.STAGE_TRANSFER, 4096, vk.STAGE_TRANSFER,
            vk.TRANSFER_READ ||| vk.TRANSFER_WRITE, 42, 0, vk.WHOLE_SIZE⟩]) ∧
    ((4096 : Nat) = vk.ACCESS_NONE →
      ((BufferStateTracker.mk
        (fun i => if i = 1 then some ⟨42, false, true⟩ else none)).update_state
        1 true false []).2.2 = [])) :=
  ⟨⟨by decide, by decide⟩,
    buffer_update_state_spec
      (BufferStateTracker.mk
        (fun i => if i = 1 then some ⟨42, false, true⟩ else none))
      1 ⟨42, false, true⟩ true false [] 4096 (by decide) (by decide)⟩

/-- C2: for a registered image id, `update_state_read` appends a barrier iff
the stored layout differs from TRANSFER_SRC_OPTIMAL or `write_pending`;
when it fires, the barrier is transfer→transfer with src access
TRANSFER_WRITE, dst access TRANSFER_READ, old layout = the stored layout,
new layout TRANSFER_SRC_OPTIMAL, the stored aspect mask over all mips and
layers, and the entry becomes (SRC_OPTIMAL, read_pending, no
write_pending); when it does not fire nothing is appended and the entry is
unchanged. -/
theorem image_update_read_spec
    (t : ImageStateTracker) (id : ImageId) (s : ImageState)
    (sink : List vk.ImageMemoryBarrier2)
    (h : t.images id = some s) :
    (t.update_state_read id sink).1 = some s.handle ∧
    ((s.layout ≠ vk.TRANSFER_SRC_OPTIMAL ∨ s.write_pending = true) →
      (t.update_state_read id sink).2.2
        = sink ++ [⟨vk.STAGE_TRANSFER, vk.TRANSFER_WRITE, vk.STAGE_TRANSFER,
            vk.TRANSFER_READ, s.layout, vk.TRANSFER_SRC_OPTIMAL, s.handle,
            ⟨s.aspect_mask, 0, vk.REMAINING_MIP_LEVELS, 0,
              vk.REMAINING_ARRAY_LAYERS⟩⟩] ∧
      (t.update_state_read id sink).2.1.images id
        = some ⟨s.handle, s.aspect_mask, vk.TRANSFER_SRC_OPTIMAL, true, false⟩) ∧
    (s.layout = vk.TRANSFER_SRC_OPTIMAL ∧ s.write_pending = false →
      (t.update_state_read id sink).2.2 = sink ∧
      (t.update_state_read id sink).2.1.images id = some s) := by
  cases s with
  | mk handle aspect layout rp wp =>
    cases wp <;>
      by_cases hl : layout = vk.TRANSFER_SRC_OPTIMAL <;>
        simp [ImageStateTracker.update_state_read, ImageState.update_state_read,
          h, hl]

/-- Closed witness for `image_update_read_spec`: image id 1, handle 9,
aspect COLOR, layout UNDEFINED, no pending accesses; the read fires a
transition barrier. -/
theorem image_update_read_spec_witness :
    ((ImageStateTracker.mk
        (fun i => if i = 1 then
          some ⟨9, vk.ASPECT_COLOR, vk.UNDEFINED, false, false⟩ else none)).images 1
      = some ⟨9, vk.ASPECT_COLOR, vk.UNDEFINED, false, false⟩) ∧
    (((ImageStateTracker.mk
        (fun i => if i = 1 then
          some ⟨9, vk.ASPECT_COLOR, vk.UNDEFINED, false, false⟩ else
            none)).update_state_read 1 []).1 = some (9 : Nat) ∧
    ((vk.UNDEFINED ≠ vk.TRANSFER_SRC_OPTIMAL ∨ false = true) →
      ((ImageStateTracker.mk
        (fun i => if i = 1 then
          some ⟨9, vk.ASPECT_COLOR, vk.UNDEFINED, false, false⟩ else
            none)).update_state_read 1 []).2.2
        = [] ++ [⟨vk.STAGE_TRANSFER, vk.TRANSFER_WRITE, vk.STAGE_TRANSFER,
            vk.TRANSFER_READ, vk.UNDEFINED, vk.TRANSFER_SRC_OPTIMAL, 9,
            ⟨vk.ASPECT_COLOR, 0, vk.REMAINING_MIP_LEVELS, 0,
              vk.REMAINING_ARRAY_LAYERS⟩⟩] ∧
      ((ImageStateTracker.mk
        (fun i => if i = 1 then
          some ⟨9, vk.ASPECT_COLOR, vk.UNDEFINED, false, false⟩ else
            none)).update_state_read 1 []).2.1.images 1
        = some ⟨9, vk.ASPECT_COLOR, vk.TRANSFER_SRC_OPTIMAL, true, false⟩) ∧
    (vk.UNDEFINED = vk.TRANSFER_SRC_OPTIMAL ∧ false = false →
      ((ImageStateTracker.mk
        (fun i => if i = 1 then
          some ⟨9, vk.ASPECT_COLOR, vk.UNDEFINED, false, false⟩ else
            none)).update_state_read 1 []).2.2 = [] ∧
      ((ImageStateTracker.mk
        (fun i => if i = 1 then
          some ⟨9, vk.ASPECT_COLOR, vk.UNDEFINED, false, false⟩ else
            none)).update_state_read 1 []).2.1.images 1
        = some ⟨9, vk.ASPECT_COLOR, vk.UNDEFINED, false, false⟩)) :=
  ⟨by decide,
    image_update_read_spec
      (ImageStateTracker.mk
        (fun i => if i = 1 then
          some ⟨9, vk.ASPECT_COLOR, vk.UNDEFINED, false, false⟩ else none))
      1 ⟨9, vk.ASPECT_COLOR, vk.UNDEFINED, false, false⟩ [] (by decide)⟩

/-- C3: for a registered image id, `update_state_write` appends a barrier
iff the stored layout differs from TRANSFER_DST_OPTIMAL or any access is
pending; when it fires, the barrier has src access TRANSFER_READ |
TRANSFER_WRITE, dst access TRANSFER_WRITE, old layout = the stored layout,
new layout TRANSFER_DST_OPTIMAL, and the entry becomes (DST_OPTIMAL,
write_pending, no read_pending); when it does not fire nothing is appended
and the entry is unchanged. -/
theorem image_update_write_spec
    (t : ImageStateTracker) (id : ImageId) (s : ImageState)
    (sink : List vk.ImageMemoryBarrier2)
    (h : t.images id = some s) :
    (t.update_state_write id sink).1 = some s.handle ∧
    ((s.layout ≠ vk.TRANSFER_DST_OPTIMAL ∨ s.read_pending = true ∨
        s.write_pending = true) →
      (t.update_state_write id sink).2.2
        = sink ++ [⟨vk.STAGE_TRANSFER, vk.TRANSFER_READ ||| vk.TRANSFER_WRITE,
            vk.STAGE_TRANSFER, vk.TRANSFER_WRITE, s.layout,
            vk.TRANSFER_DST_OPTIMAL, s.handle,
            ⟨s.aspect_mask, 0, vk.REMAINING_MIP_LEVELS, 0,
              vk.REMAINING_ARRAY_LAYERS⟩⟩] ∧
      (t.update_state_write id sink).2.1.images id
        = some ⟨s.handle, s.aspect_mask, vk.TRANSFER_DST_OPTIMAL, false, true⟩) ∧
    (s.layout = vk.TRANSFER_DST_OPTIMAL ∧ s.read_pending = false ∧
        s.write_pending = false →
      (t.update_state_write id sink).2.2 = sink ∧
      (t.update_state_write id sink).2.1.images id = some s) := by
  cases s with
  | mk handle aspect layout rp wp =>
    cases rp <;> cases wp <;>
      by_cases hl : layout = vk.TRANSFER_DST_OPTIMAL <;>
        simp [ImageStateTracker.update_state_write,
          ImageState.update_state_write, h, hl]

/-- Closed witness for `image_update_write_spec`: image id 2, handle 11,
aspect COLOR, layout UNDEFINED; the write fires a transition barrier. -/
theorem image_update_write_spec_witness :
    ((ImageStateTracker.mk
        (fun i => if i = 2 then
          some ⟨11, vk.ASPECT_COLOR, vk.UNDEFINED, false, false⟩ else none)).images 2
      = some ⟨11, vk.ASPECT_COLOR, vk.UNDEFINED, false, false⟩) ∧
    (((ImageStateTracker.mk
        (fun i => if i = 2 then
          some ⟨11, vk.ASPECT_COLOR, vk.UNDEFINED, false, false⟩ else
            none)).update_state_write 2 []).1 = some (11 : Nat) ∧
    ((vk.UNDEFINED ≠ vk.TRANSFER_DST_OPTIMAL ∨ false = true ∨ false = true) →
      ((ImageStateTracker.mk
        (fun i => if i = 2 then
          some ⟨11, vk.ASPECT_COLOR, vk.UNDEFINED, false, false⟩ else
            none)).update_state_write 2 []).2.2
        = [] ++ [⟨vk.STAGE_TRANSFER, vk.TRANSFER_READ ||| vk.TRANSFER_WRITE,
            vk.STAGE_TRANSFER, vk.TRANSFER_WRITE, vk.UNDEFINED,
            vk.TRANSFER_DST_OPTIMAL, 11,
            ⟨vk.ASPECT_COLOR, 0, vk.REMAINING_MIP_LEVELS, 0,
              vk.REMAINING_ARRAY_LAYERS⟩⟩] ∧
      ((ImageStateTracker.mk
        (fun i => if i = 2 then
          some ⟨11, vk.ASPECT_COLOR, vk.UNDEFINED, false, false⟩ else
            none)).update_state_write 2 []).2.1.images 2
        = some ⟨11, vk.ASPECT_COLOR, vk.TRANSFER_DST_OPTIMAL, false, true⟩) ∧
    (vk.UNDEFINED = vk.TRANSFER_DST_OPTIMAL ∧ false = false ∧ false = false →
      ((ImageStateTracker.mk
        (fun i => if i = 2 then
          some ⟨11, vk.ASPECT_COLOR, vk.UNDEFINED, false, false⟩ else
            none)).update_state_write 2 []).2.2 = [] ∧
      ((ImageStateTracker.mk
        (fun i => if i = 2 then
          some ⟨11, vk.ASPECT_COLOR, vk.UNDEFINED, false, false⟩ else
            none)).update_state_write 2 []).2.1.images 2
        = some ⟨11, vk.ASPECT_COLOR, vk.UNDEFINED, false, false⟩)) :=
  ⟨by decide,
    image_update_write_spec
      (ImageStateTracker.mk
        (fun i => if i = 2 then
          some ⟨11, vk.ASPECT_COLOR, vk.UNDEFINED, false, false⟩ else none))
      2 ⟨11, vk.ASPECT_COLOR, vk.UNDEFINED, false, false⟩ [] (by decide)⟩

/-- One `update_state_read` step preserves the flag invariant: both flags
false while no barrier has been emitted, exactly one flag set once one
has. -/
theorem update_state_read_flags (s : ImageState)
    (bs : List vk.ImageMemoryBarrier2)
    (h1 : bs = [] → s.read_pending = false ∧ s.write_pending = false)
    (h2 : bs ≠ [] →
      (s.read_pending = true ∧ s.write_pending = false) ∨
      (s.read_pending = false ∧ s.write_pending = true)) :
    ((s.update_state_read bs).2 = [] →
      (s.update_state_read bs).1.read_pending = false ∧
      (s.update_state_read bs).1.write_pending = false) ∧
    ((s.update_state_read bs).2 ≠ [] →
      ((s.update_state_read bs).1.read_pending = true ∧
        (s.update_state_read bs).1.write_pending = false) ∨
      ((s.update_state_read bs).1.read_pending = false ∧
        (s.update_state_read bs).1.write_pending = true)) := by
  unfold ImageState.update_state_read
  split
  · refine ⟨fun hc => absurd hc (by simp), fun _ => Or.inl ⟨rfl, rfl⟩⟩
  · exact ⟨h1, h2⟩

/-- One `update_state_write` step preserves the flag invariant. -/
theorem update_state_write_flags (s : ImageState)
    (bs : List vk.ImageMemoryBarrier2)
    (h1 : bs = [] → s.read_pending = false ∧ s.write_pending = false)
    (h2 : bs ≠ [] →
      (s.read_pending = true ∧ s.write_pending = false) ∨
      (s.read_pending = false ∧ s.write_pending = true)) :
    ((s.update_state_write bs).2 = [] →
      (s.update_state_write bs).1.read_pending = false ∧
      (s.update_state_write bs).1.write_pending = false) ∧
    ((s.update_state_write bs).2 ≠ [] →
      ((s.update_state_write bs).1.read_pending = true ∧
        (s.update_state_write bs).1.write_pending = false) ∨
      ((s.update_state_write bs).1.read_pending = false ∧
        (s.update_state_write bs).1.write_pending = true)) := by
  unfold ImageState.update_state_write
  split
  · refine ⟨fun hc => absurd hc (by simp), fun _ => Or.inr ⟨rfl, rfl⟩⟩
  · exact ⟨h1, h2⟩

/-- The flag invariant holds after any run of image updates. -/
theorem runImgOps_flags (ops : List ImgOp) (s : ImageState)
    (bs : List vk.ImageMemoryBarrier2)
    (h1 : bs = [] → s.read_pending = false ∧ s.write_pending = false)
    (h2 : bs ≠ [] →
      (s.read_pending = true ∧ s.write_pending = false) ∨
      (s.read_pending = false ∧ s.write_pending = true)) :
    ((runImgOps s ops bs).2 = [] →
      (runImgOps s ops bs).1.read_pending = false ∧
      (runImgOps s ops bs).1.write_pending = false) ∧
    ((runImgOps s ops bs).2 ≠ [] →
      ((runImgOps s ops bs).1.read_pending = true ∧
        (runImgOps s ops bs).1.write_pending = false) ∨
      ((runImgOps s ops bs).1.read_pending = false ∧
        (runImgOps s ops bs).1.write_pending = true)) := by
  induction ops generalizing s bs with
  | nil => exact ⟨h1, h2⟩
  | cons op rest ih =>
    cases op with
    | opRead =>
      have hstep := update_state_read_flags s bs h1 h2
      simpa [runImgOps] using ih _ _ hstep.1 hstep.2
    | opWrite =>
      have hstep := update_state_write_flags s bs h1 h2
      simpa [runImgOps] using ih _ _ hstep.1 hstep.2

/-- C4 amended: for any image entry and any sequence of update_read /
update_write calls starting from registration, at most one of the pending
flags is ever true: both flags are false exactly while no barrier has been
appended for the entry, and once some update has appended a barrier exactly
one of the flags is true and the other false. -/
theorem image_pending_flags_amended (img : Image) (aspect layout : Nat)
    (ops : List ImgOp) :
    ((runImgOps (ImageState.new img aspect layout) ops []).2 = [] →
      (runImgOps (ImageState.new img aspect layout) ops []).1.read_pending = false ∧
      (runImgOps (ImageState.new img aspect layout) ops []).1.write_pending = false) ∧
    ((runImgOps (ImageState.new img aspect layout) ops []).2 ≠ [] →
      ((runImgOps (ImageState.new img aspect layout) ops []).1.read_pending = true ∧
        (runImgOps (ImageState.new img aspect layout) ops []).1.write_pending = false) ∨
      ((runImgOps (ImageState.new img aspect layout) ops []).1.read_pending = false ∧
        (runImgOps (ImageState.new img aspect layout) ops []).1.write_pending = true)) :=
  runImgOps_flags ops (ImageState.new img aspect layout) []
    (fun _ => ⟨rfl, rfl⟩) (fun hc => absurd rfl hc)

/-- Closed witness for `image_pending_flags_amended`: one write from
UNDEFINED fires a barrier and leaves exactly the write flag set. -/
theorem image_pending_flags_amended_witness :
    (runImgOps (ImageState.new ⟨1, 7⟩ vk.ASPECT_COLOR vk.UNDEFINED)
        [ImgOp.opWrite] []).2 ≠ [] ∧
    (((runImgOps (ImageState.new ⟨1, 7⟩ vk.ASPECT_COLOR vk.UNDEFINED)
        [ImgOp.opWrite] []).1.read_pending = true ∧
      (runImgOps (ImageState.new ⟨1, 7⟩ vk.ASPECT_COLOR vk.UNDEFINED)
        [ImgOp.opWrite] []).1.write_pending = false) ∨
    ((runImgOps (ImageState.new ⟨1, 7⟩ vk.ASPECT_COLOR vk.UNDEFINED)
        [ImgOp.opWrite] []).1.read_pending = false ∧
      (runImgOps (ImageState.new ⟨1, 7⟩ vk.ASPECT_COLOR vk.UNDEFINED)
        [ImgOp.opWrite] []).1.write_pending = true)) :=
  ⟨by decide,
    (image_pending_flags_amended ⟨1, 7⟩ vk.ASPECT_COLOR vk.UNDEFINED
      [ImgOp.opWrite]).2 (by decide)⟩

/-- One `update_state_read` step preserves the layout invariant: the stored
layout equals the `new_layout` of the last appended barrier, or the initial
layout if none has been appended. -/
theorem update_state_read_layout (init : Nat) (s : ImageState)
    (bs : List vk.ImageMemoryBarrier2)
    (h1 : bs = [] → s.layout = init)
    (h2 : ∀ b, bs.getLast? = some b → s.layout = b.new_layout) :
    ((s.update_state_read bs).2 = [] → (s.update_state_read bs).1.layout = init) ∧
    (∀ b, (s.update_state_read bs).2.getLast? = some b →
      (s.update_state_read bs).1.layout = b.new_layout) := by
  unfold ImageState.update_state_read
  split
  · refine ⟨fun hc => absurd hc (by simp), fun b hb => ?_⟩
    rw [List.getLast?_append_cons] at hb
    simp only [List.getLast?_singleton, Option.some.injEq] at hb
    rw [← hb]
  · exact ⟨h1, h2⟩

/-- One `update_state_write` step preserves the layout invariant. -/
theorem update_state_write_layout (init : Nat) (s : ImageState)
    (bs : List vk.ImageMemoryBarrier2)
    (h1 : bs = [] → s.layout = init)
    (h2 : ∀ b, bs.getLast? = some b → s.layout = b.new_layout) :
    ((s.update_state_write bs).2 = [] → (s.update_state_write bs).1.layout = init) ∧
    (∀ b, (s.update_state_write bs).2.getLast? = some b →
      (s.update_state_write bs).1.layout = b.new_layout) := by
  unfold ImageState.update_state_write
  split
  · refine ⟨fun hc => absurd hc (by simp), fun b hb => ?_⟩
    rw [List.getLast?_append_cons] at hb
    simp only [List.getLast?_singleton, Option.some.injEq] at hb
    rw [← hb]
  · exact ⟨h1, h2⟩

/-- The layout invariant holds after any run of image updates. -/
theorem runImgOps_layout (ops : List ImgOp) (init : Nat) (s : ImageState)
    (bs : List vk.ImageMemoryBarrier2)
    (h1 : bs = [] → s.layout = init)
    (h2 : ∀ b, bs.getLast? = some b → s.layout = b.new_layout) :
    ((runImgOps s ops bs).2 = [] → (runImgOps s ops bs).1.layout = init) ∧
    (∀ b, (runImgOps s ops bs).2.getLast? = some b →
      (runImgOps s ops bs).1.layout = b.new_layout) := by
  induction ops generalizing s bs with
  | nil => exact ⟨h1, h2⟩
  | cons op rest ih =>
    cases op with
    | opRead =>
      have hstep := update_state_read_layout init s bs h1 h2
      simpa [runImgOps] using ih _ _ hstep.1 hstep.2
    | opWrite =>
      have hstep := update_state_write_layout init s bs h1 h2
      simpa [runImgOps] using ih _ _ hstep.1 hstep.2

/-- C7: for any image entry and any sequence of update_read / update_write
calls starting from registration, the entry's stored layout equals the
`new_layout` of the most recently appended image barrier, or the layout
supplied at registration if no barrier has been appended. -/
theorem image_layout_tracks_barriers (img : Image) (aspect layout : Nat)
    (ops : List ImgOp) :
    ((runImgOps (ImageState.new img aspect layout) ops []).2 = [] →
      (runImgOps (ImageState.new img aspect layout) ops []).1.layout = layout) ∧
    (∀ b, (runImgOps (ImageState.new img aspect layout) ops []).2.getLast?
        = some b →
      (runImgOps (ImageState.new img aspect layout) ops []).1.layout
        = b.new_layout) :=
  runImgOps_layout ops layout (ImageState.new img aspect layout) []
    (fun _ => rfl) (fun b hb => by simp at hb)

/-- Closed witness for `image_layout_tracks_barriers`: one write from
UNDEFINED appends a barrier whose `new_layout` is TRANSFER_DST_OPTIMAL and
the stored layout agrees with it. -/
theorem image_layout_tracks_barriers_witness :
    (runImgOps (ImageState.new ⟨1, 7⟩ vk.ASPECT_COLOR vk.UNDEFINED)
        [ImgOp.opWrite] []).2.getLast?
      = some ⟨vk.STAGE_TRANSFER, vk.TRANSFER_READ ||| vk.TRANSFER_WRITE,
          vk.STAGE_TRANSFER, vk.TRANSFER_WRITE, vk.UNDEFINED,
          vk.TRANSFER_DST_OPTIMAL, 7,
          ⟨vk.ASPECT_COLOR, 0, vk.REMAINING_MIP_LEVELS, 0,
            vk.REMAINING_ARRAY_LAYERS⟩⟩ ∧
    (runImgOps (ImageState.new ⟨1, 7⟩ vk.ASPECT_COLOR vk.UNDEFINED)
        [ImgOp.opWrite] []).1.layout
      = (⟨vk.STAGE_TRANSFER, vk.TRANSFER_READ ||| vk.TRANSFER_WRITE,
          vk.STAGE_TRANSFER, vk.TRANSFER_WRITE, vk.UNDEFINED,
          vk.TRANSFER_DST_OPTIMAL, 7,
          ⟨vk.ASPECT_COLOR, 0, vk.REMAINING_MIP_LEVELS, 0,
            vk.REMAINING_ARRAY_LAYERS⟩⟩ : vk.ImageMemoryBarrier2).new_layout :=
  ⟨by decide,
    (image_layout_tracks_barriers ⟨1, 7⟩ vk.ASPECT_COLOR vk.UNDEFINED
      [ImgOp.opWrite]).2 _ (by decide)⟩

/-- C6: every failing operation is free of side effects: `register` of an
already-present id returns the error and leaves the tracker (hence the
existing entry) and the sink untouched; buffer `update_state`, image
`update_state_read` / `update_state_write` and both `release`s on an
unknown id return `none`, append nothing to the sink and leave the map
unchanged. -/
theorem tracker_failures_no_side_effect
    (t : BufferStateTracker) (ti : ImageStateTracker)
    (b : Buffer) (ub : BufferId) (im : Image) (ui : ImageId)
    (aspect layout : Nat) (read write : Bool)
    (sink : List vk.BufferMemoryBarrier2) (isink : List vk.ImageMemoryBarrier2)
    (hb : (t.buffers b.get_id).isSome = true)
    (hub : t.buffers ub = none)
    (hi : (ti.images im.get_id).isSome = true)
    (hui : ti.images ui = none) :
    t.register b = (Except.error (), t) ∧
    t.update_state ub read write sink = (none, t, sink) ∧
    t.release ub = (none, t) ∧
    ti.register im aspect layout = (Except.error (), ti) ∧
    ti.update_state_read ui isink = (none, ti, isink) ∧
    ti.update_state_write ui isink = (none, ti, isink) ∧
    ti.release ui = (none, ti) := by
  refine ⟨?_, ?_, ?_, ?_, ?_, ?_, ?_⟩ <;>
    simp [BufferStateTracker.register, BufferStateTracker.update_state,
      BufferStateTracker.release, ImageStateTracker.register,
      ImageStateTracker.update_state_read, ImageStateTracker.update_state_write,
      ImageStateTracker.release, hb, hub, hi, hui]

/-- Closed witness for `tracker_failures_no_side_effect`: a buffer tracker
holding id 1 and an image tracker holding id 1; duplicate registration of
id 1 and operations on the unknown id 2 all fail without effect. -/
theorem tracker_failures_no_side_effect_witness :
    (((BufferStateTracker.mk
        (fun i => if i = 1 then some ⟨42, false, false⟩ else none)).buffers
        (Buffer.get_id ⟨1, 99⟩)).isSome = true ∧
     (BufferStateTracker.mk
        (fun i => if i = 1 then some ⟨42, false, false⟩ else none)).buffers 2
        = none ∧
     ((ImageStateTracker.mk
        (fun i => if i = 1 then
          some ⟨9, vk.ASPECT_COLOR, vk.UNDEFINED, false, false⟩ else none)).images
        (Image.get_id ⟨1, 99⟩)).isSome = true ∧
     (ImageStateTracker.mk
        (fun i => if i = 1 then
          some ⟨9, vk.ASPECT_COLOR, vk.UNDEFINED, false, false⟩ else none)).images 2
        = none) ∧
    ((BufferStateTracker.mk
        (fun i => if i = 1 then some ⟨42, false, false⟩ else none)).register
        ⟨1, 99⟩
      = (Except.error (), BufferStateTracker.mk
          (fun i => if i = 1 then some ⟨42, false, false⟩ else none)) ∧
    (BufferStateTracker.mk
        (fun i => if i = 1 then some ⟨42, false, false⟩ else none)).update_state
        2 true true []
      = (none, BufferStateTracker.mk
          (fun i => if i = 1 then some ⟨42, false, false⟩ else none), []) ∧
    (BufferStateTracker.mk
        (fun i => if i = 1 then some ⟨42, false, false⟩ else none)).release 2
      = (none, BufferStateTracker.mk
          (fun i => if i = 1 then some ⟨42, false, false⟩ else none)) ∧
    (ImageStateTracker.mk
        (fun i => if i = 1 then
          some ⟨9, vk.ASPECT_COLOR, vk.UNDEFINED, false, false⟩ else none)).register
        ⟨1, 99⟩ vk.ASPECT_COLOR vk.UNDEFINED
      = (Except.error (), ImageStateTracker.mk
          (fun i => if i = 1 then
            some ⟨9, vk.ASPECT_COLOR, vk.UNDEFINED, false, false⟩ else none)) ∧
    (ImageStateTracker.mk
        (fun i => if i = 1 then
          some ⟨9, vk.ASPECT_COLOR, vk.UNDEFINED, false, false⟩ else
            none)).update_state_read 2 []
      = (none, ImageStateTracker.mk
          (fun i => if i = 1 then
            some ⟨9, vk.ASPECT_COLOR, vk.UNDEFINED, false, false⟩ else none), []) ∧
    (ImageStateTracker.mk
        (fun i => if i = 1 then
          some ⟨9, vk.ASPECT_COLOR, vk.UNDEFINED, false, false⟩ else
            none)).update_state_write 2 []
      = (none, ImageStateTracker.mk
          (fun i => if i = 1 then
            some ⟨9, vk.ASPECT_COLOR, vk.UNDEFINED, false, false⟩ else none), []) ∧
    (ImageStateTracker.mk
        (fun i => if i = 1 then
          some ⟨9, vk.ASPECT_COLOR, vk.UNDEFINED, false, false⟩ else none)).release 2
      = (none, ImageStateTracker.mk
          (fun i => if i = 1 then
            some ⟨9, vk.ASPECT_COLOR, vk.UNDEFINED, false, false⟩ else none))) :=
  ⟨⟨by decide, by decide, by decide, by decide⟩,
    tracker_failures_no_side_effect
      (BufferStateTracker.mk
        (fun i => if i = 1 then some ⟨42, false, false⟩ else none))
      (ImageStateTracker.mk
        (fun i => if i = 1 then
          some ⟨9, vk.ASPECT_COLOR, vk.UNDEFINED, false, false⟩ else none))
      ⟨1, 99⟩ 2 ⟨1, 99⟩ 2 vk.ASPECT_COLOR vk.UNDEFINED true true [] []
      (by decide) (by decide) (by decide) (by decide)⟩

/-- C10: every update or release on one id leaves every entry with a
different id unchanged; no update changes an entry's stored handle or (for
images) its aspect mask; and the handle returned by update and release is
the stored one. -/
theorem update_release_frame
    (t : BufferStateTracker) (ti : ImageStateTracker)
    (id j : BufferId) (iid ij : ImageId)
    (read write : Bool) (s : BufferState) (si : ImageState)
    (sink : List vk.BufferMemoryBarrier2) (isink : List vk.ImageMemoryBarrier2)
    (hj : j ≠ id) (hij : ij ≠ iid) :
    (t.update_state id read write sink).2.1.buffers j = t.buffers j ∧
    (t.release id).2.buffers j = t.buffers j ∧
    (ti.update_state_read iid isink).2.1.images ij = ti.images ij ∧
    (ti.update_state_write iid isink).2.1.images ij = ti.images ij ∧
    (ti.release iid).2.images ij = ti.images ij ∧
    (t.buffers id = some s →
      (t.update_state id read write sink).1 = some s.handle ∧
      ((t.update_state id read write sink).2.1.buffers id).map BufferState.handle
        = some s.handle ∧
      ((t.release id).1).map Prod.fst = some s.handle) ∧
    (ti.images iid = some si →
      (ti.update_state_read iid isink).1 = some si.handle ∧
      (ti.update_state_write iid isink).1 = some si.handle ∧
      ((ti.update_state_read iid isink).2.1.images iid).map
          (fun x => (x.handle, x.aspect_mask))
        = some (si.handle, si.aspect_mask) ∧
      ((ti.update_state_write iid isink).2.1.images iid).map
          (fun x => (x.handle, x.aspect_mask))
        = some (si.handle, si.aspect_mask) ∧
      ((ti.release iid).1).map Prod.fst = some si.handle) := by
  refine ⟨?_, ?_, ?_, ?_, ?_, ?_, ?_⟩
  · cases hb : t.buffers id <;>
      simp [BufferStateTracker.update_state, hb, hj]
  · cases hb : t.buffers id <;>
      simp [BufferStateTracker.release, hb, hj]
  · cases hb : ti.images iid <;>
      simp [ImageStateTracker.update_state_read, hb, hij]
  · cases hb : ti.images iid <;>
      simp [ImageStateTracker.update_state_write, hb, hij]
  · cases hb : ti.images iid <;>
      simp [ImageStateTracker.release, hb, hij]
  · intro hs
    refine ⟨?_, ?_, ?_⟩ <;>
      simp [BufferStateTracker.update_state, BufferStateTracker.release, hs,
        BufferState.update_state] <;>
      split <;> simp
  · intro hs
    refine ⟨?_, ?_, ?_, ?_, ?_⟩ <;>
      simp [ImageStateTracker.update_state_read,
        ImageStateTracker.update_state_write, ImageStateTracker.release, hs,
        ImageState.update_state_read, ImageState.update_state_write] <;>
      split <;> simp

/-- Closed witness for `update_release_frame`: trackers with entries at ids
1 and 2; operations on id 1 leave the entry at id 2 unchanged and return
the stored handles. -/
theorem update_release_frame_witness :
    ((2 : Nat) ≠ 1 ∧ (2 : Nat) ≠ 1) ∧
    (((BufferStateTracker.mk
        (fun i => if i = 1 then some ⟨42, true, false⟩ else
          if i = 2 then some ⟨43, false, false⟩ else none)).update_state
        1 true false []).2.1.buffers 2
      = (BufferStateTracker.mk
        (fun i => if i = 1 then some ⟨42, true, false⟩ else
          if i = 2 then some ⟨43, false, false⟩ else none)).buffers 2 ∧
    ((BufferStateTracker.mk
        (fun i => if i = 1 then some ⟨42, true, false⟩ else
          if i = 2 then some ⟨43, false, false⟩ else none)).release 1).2.buffers 2
      = (BufferStateTracker.mk
        (fun i => if i = 1 then some ⟨42, true, false⟩ else
          if i = 2 then some ⟨43, false, false⟩ else none)).buffers 2 ∧
    ((ImageStateTracker.mk
        (fun i => if i = 1 then
          some ⟨9, vk.ASPECT_COLOR, vk.UNDEFINED, false, false⟩ else
          if i = 2 then
            some ⟨10, vk.ASPECT_COLOR, vk.UNDEFINED, false, false⟩ else
              none)).update_state_read 1 []).2.1.images 2
      = (ImageStateTracker.mk
        (fun i => if i = 1 then
          some ⟨9, vk.ASPECT_COLOR, vk.UNDEFINED, false, false⟩ else
          if i = 2 then
            some ⟨10, vk.ASPECT_COLOR, vk.UNDEFINED, false, false⟩ else
              none)).images 2 ∧
    ((ImageStateTracker.mk
        (fun i => if i = 1 then
          some ⟨9, vk.ASPECT_COLOR, vk.UNDEFINED, false, false⟩ else
          if i = 2 then
            some ⟨10, vk.ASPECT_COLOR, vk.UNDEFINED, false, false⟩ else
              none)).update_state_write 1 []).2.1.images 2
      = (ImageStateTracker.mk
        (fun i => if i = 1 then
          some ⟨9, vk.ASPECT_COLOR, vk.UNDEFINED, false, false⟩ else
          if i = 2 then
            some ⟨10, vk.ASPECT_COLOR, vk.UNDEFINED, false, false⟩ else
              none)).images 2 ∧
    ((ImageStateTracker.mk
        (fun i => if i = 1 then
          some ⟨9, vk.ASPECT_COLOR, vk.UNDEFINED, false, false⟩ else
          if i = 2 then
            some ⟨10, vk.ASPECT_COLOR, vk.UNDEFINED, false, false⟩ else
              none)).release 1).2.images 2
      = (ImageStateTracker.mk
        (fun i => if i = 1 then
          some ⟨9, vk.ASPECT_COLOR, vk.UNDEFINED, false, false⟩ else
          if i = 2 then
            some ⟨10, vk.ASPECT_COLOR, vk.UNDEFINED, false, false⟩ else
              none)).images 2 ∧
    ((BufferStateTracker.mk
        (fun i => if i = 1 then some ⟨42, true, false⟩ else
          if i = 2 then some ⟨43, false, false⟩ else none)).buffers 1
        = some ⟨42, true, false⟩ →
      ((BufferStateTracker.mk
        (fun i => if i = 1 then some ⟨42, true, false⟩ else
          if i = 2 then some ⟨43, false, false⟩ else none)).update_state
        1 true false []).1 = some (BufferState.handle ⟨42, true, false⟩) ∧
      (((BufferStateTracker.mk
        (fun i => if i = 1 then some ⟨42, true, false⟩ else
          if i = 2 then some ⟨43, false, false⟩ else none)).update_state
        1 true false []).2.1.buffers 1).map BufferState.handle
        = some (BufferState.handle ⟨42, true, false⟩) ∧
      (((BufferStateTracker.mk
        (fun i => if i = 1 then some ⟨42, true, false⟩ else
          if i = 2 then some ⟨43, false, false⟩ else none)).release 1).1).map
          Prod.fst = some (BufferState.handle ⟨42, true, false⟩)) ∧
    ((ImageStateTracker.mk
        (fun i => if i = 1 then
          some ⟨9, vk.ASPECT_COLOR, vk.UNDEFINED, false, false⟩ else
          if i = 2 then
            some ⟨10, vk.ASPECT_COLOR, vk.UNDEFINED, false, false⟩ else
              none)).images 1
        = some ⟨9, vk.ASPECT_COLOR, vk.UNDEFINED, false, false⟩ →
      ((ImageStateTracker.mk
        (fun i => if i = 1 then
          some ⟨9, vk.ASPECT_COLOR, vk.UNDEFINED, false, false⟩ else
          if i = 2 then
            some ⟨10, vk.ASPECT_COLOR, vk.UNDEFINED, false, false⟩ else
              none)).update_state_read 1 []).1
        = some (ImageState.handle ⟨9, vk.ASPECT_COLOR, vk.UNDEFINED, false, false⟩) ∧
      ((ImageStateTracker.mk
        (fun i => if i = 1 then
          some ⟨9, vk.ASPECT_COLOR, vk.UNDEFINED, false, false⟩ else
          if i = 2 then
            some ⟨10, vk.ASPECT_COLOR, vk.UNDEFINED, false, false⟩ else
              none)).update_state_write 1 []).1
        = some (ImageState.handle ⟨9, vk.ASPECT_COLOR, vk.UNDEFINED, false, false⟩) ∧
      (((ImageStateTracker.mk
        (fun i => if i = 1 then
          some ⟨9, vk.ASPECT_COLOR, vk.UNDEFINED, false, false⟩ else
          if i = 2 then
            some ⟨10, vk.ASPECT_COLOR, vk.UNDEFINED, false, false⟩ else
              none)).update_state_read 1 []).2.1.images 1).map
          (fun x => (x.handle, x.aspect_mask))
        = some (ImageState.handle ⟨9, vk.ASPECT_COLOR, vk.UNDEFINED, false, false⟩,
            ImageState.aspect_mask ⟨9, vk.ASPECT_COLOR, vk.UNDEFINED, false, false⟩) ∧
      (((ImageStateTracker.mk
        (fun i => if i = 1 then
          some ⟨9, vk.ASPECT_COLOR, vk.UNDEFINED, false, false⟩ else
          if i = 2 then
            some ⟨10, vk.ASPECT_COLOR, vk.UNDEFINED, false, false⟩ else
              none)).update_state_write 1 []).2.1.images 1).map
          (fun x => (x.handle, x.aspect_mask))
        = some (ImageState.handle ⟨9, vk.ASPECT_COLOR, vk.UNDEFINED, false, false⟩,
            ImageState.aspect_mask ⟨9, vk.ASPECT_COLOR, vk.UNDEFINED, false, false⟩) ∧
      (((ImageStateTracker.mk
        (fun i => if i = 1 then
          some ⟨9, vk.ASPECT_COLOR, vk.UNDEFINED, false, false⟩ else
          if i = 2 then
            some ⟨10, vk.ASPECT_COLOR, vk.UNDEFINED, false, false⟩ else
              none)).release 1).1).map Prod.fst
        = some (ImageState.handle
            ⟨9, vk.ASPECT_COLOR, vk.UNDEFINED, false, false⟩))) :=
  ⟨⟨by decide, by decide⟩,
    update_release_frame
      (BufferStateTracker.mk
        (fun i => if i = 1 then some ⟨42, true, false⟩ else
          if i = 2 then some ⟨43, false, false⟩ else none))
      (ImageStateTracker.mk
        (fun i => if i = 1 then
          some ⟨9, vk.ASPECT_COLOR, vk.UNDEFINED, false, false⟩ else
          if i = 2 then
            some ⟨10, vk.ASPECT_COLOR, vk.UNDEFINED, false, false⟩ else none))
      1 2 1 2 true false ⟨42, true, false⟩
      ⟨9, vk.ASPECT_COLOR, vk.UNDEFINED, false, false⟩ [] []
      (by decide) (by decide)⟩

end Blaze4D
